import Mathlib

/-!
Shallow embedding of the pxpaper/frame provisioning server (`src/server.js`
and the historical server revisions bundled in the repository).

The server accepts WiFi credentials either through a captive-portal route
(`POST /setup/wifi`) or through a BLE GATT characteristic write, persists
them to `config/wifi-config.json`, and drives the device into client/kiosk
mode by running shell scripts.  Handlers are embedded as pure functions
producing an ordered list of effects (file writes, HTTP responses,
`setTimeout` registrations, script chains); chained `runScript` callbacks
are embedded as `GatedChain`, executed against an oracle saying which
commands succeed.
-/

/-- Parsed JSON values, the possible results of a successful `JSON.parse`.
Numbers are restricted to integers, which covers every payload appearing in
this development. -/
inductive Json where
  | null
  | bool (b : Bool)
  | num (n : Int)
  | str (s : String)
  | arr (elems : List Json)
  | obj (fields : List (String × Json))

/-- Characters stripped by JavaScript `String.prototype.trim` (ECMA WhiteSpace
and LineTerminator code points; the representative set suffices here). -/
def jsIsSpace (c : Char) : Bool :=
  c = ' ' || c = '\t' || c = '\n' || c = '\r' || c = '\x0b' || c = '\x0c' ||
  c = '\u00A0' || c = '\uFEFF' || c = '\u2028' || c = '\u2029'

/-- JavaScript `s.trim()`: strip `jsIsSpace` characters from both ends. -/
def jsTrim (s : String) : String :=
  String.mk (((s.data.dropWhile jsIsSpace).reverse.dropWhile jsIsSpace).reverse)

/-- JavaScript truthiness of a JSON value (`null`, `false`, `0` and `""` are
falsy; arrays and objects are always truthy). -/
def jsTruthy : Json → Bool
  | .null => false
  | .bool b => b
  | .num n => n != 0
  | .str s => s != ""
  | .arr _ => true
  | .obj _ => true

/-- Truthiness of a possibly-`undefined` JavaScript value (`none` stands for
`undefined`, which is falsy). -/
def jsTruthyOpt : Option Json → Bool
  | none => false
  | some v => jsTruthy v

/-- JavaScript property access `v.key` on a parsed JSON value: throws
(`TypeError`) on `null`, yields the field on objects (`none` = `undefined`),
and yields `undefined` on other primitives/arrays, which own no such
property. -/
def jsProp (v : Json) (key : String) : Except Unit (Option Json) :=
  match v with
  | .null => .error ()
  | .obj fields => .ok (fields.lookup key)
  | _ => .ok none

/-- JavaScript method call `v.trim()`: defined only on strings; on
`undefined` or any non-string value the call throws (`TypeError`). -/
def jsTrimCall (v : Option Json) : Except Unit String :=
  match v with
  | some (.str s) => .ok (jsTrim s)
  | _ => .error ()

/-- The boolean value of the expression in `wifiCredentialsExist`
(src/server.js:37):
`data.ssid && data.password && data.ssid.trim() !== '' && data.password.trim() !== ''`,
with JavaScript short-circuiting and exceptions made explicit. -/
def credFieldExpr (data : Json) : Except Unit Bool :=
  match jsProp data "ssid" with
  | .error e => .error e
  | .ok ssid =>
    if !jsTruthyOpt ssid then .ok false
    else match jsProp data "password" with
      | .error e => .error e
      | .ok password =>
        if !jsTruthyOpt password then .ok false
        else match jsTrimCall ssid with
          | .error e => .error e
          | .ok strim =>
            if strim == "" then .ok false
            else match jsTrimCall password with
              | .error e => .error e
              | .ok ptrim => .ok (ptrim != "")

/-- `try { return e } catch { return false }` around a boolean expression. -/
def jsBoolCaught (r : Except Unit Bool) : Bool :=
  match r with
  | .ok b => b
  | .error _ => false

/-- The on-disk credential record file `config/wifi-config.json`:
`none` = file absent; `some (.error ())` = file present but its contents make
`JSON.parse` throw; `some (.ok j)` = file present and parses to `j`. -/
abbrev FileState := Option (Except Unit Json)

/-- `wifiCredentialsExist` (src/server.js:31-42): false when the file is
missing; otherwise parse it and evaluate the field-validity expression,
returning false if anything throws. -/
def wifiCredentialsExist (file : FileState) : Bool :=
  match file with
  | none => false
  | some (.error _) => false
  | some (.ok data) => jsBoolCaught (credFieldExpr data)

/-- `wifiCredentialsExist` in the historical revisions (e.g.
src/unnamed/part_005:23): bare `fs.existsSync(wifiConfigPath)`. -/
def wifiCredentialsExistLegacy (file : FileState) : Bool :=
  file.isSome

/-- Shell commands issued through `runScript` / `exec` across the server
revisions. -/
def stopBluetoothCmd : String := "bash scripts/stop_bluetooth.sh"

def launchKioskCmd : String := "bash scripts/launch_kiosk.sh"

def stopApCmd : String := "bash scripts/stop_ap.sh"

def setupApCmd : String := "bash scripts/setup_ap.sh"

def bluetoothProvisionCmd : String := "bash scripts/bluetooth_provision.sh"

/-- A `runScript cmd (error => if (!error) runScript next)` callback chain:
`first` is issued immediately; `onSuccess` is issued only from `first`'s
completion callback, and only when `first` reported no error. -/
structure GatedChain where
  first : String
  onSuccess : Option String
deriving DecidableEq

/-- The chain used by `src/server.js` on every accepted submission and on a
provisioned boot: `stop_bluetooth.sh`, then on success `launch_kiosk.sh`
(src/server.js:90-94, 177-183, 194-199). -/
def chainStopBtLaunch : GatedChain :=
  { first := stopBluetoothCmd, onSuccess := some launchKioskCmd }

/-- Commands issued when a chain runs, given an oracle `ok` telling which
commands complete without error: the gated second command is issued only
after the first completes successfully. -/
def runChain (c : GatedChain) (ok : String → Bool) : List String :=
  c.first :: (if ok c.first then c.onSuccess.toList else [])

/-- The provisioning actions named by the spec (§4.3). -/
inductive SpecAction where
  | enableBroadcast
  | disableBroadcast
  | applyClientConfig
  | launchDisplay
deriving DecidableEq

/-- What each repository script does, read off the scripts themselves:
`stop_bluetooth.sh` turns BLE discoverability off; `launch_kiosk.sh` starts
the Chromium display; `setup_ap.sh` / `bluetooth_provision.sh` enable a
broadcast channel; `stop_ap.sh` both stops the AP services and writes/applies
the wpa_supplicant client configuration. -/
def cmdActions (cmd : String) : List SpecAction :=
  if cmd = stopBluetoothCmd then [.disableBroadcast]
  else if cmd = launchKioskCmd then [.launchDisplay]
  else if cmd = setupApCmd then [.enableBroadcast]
  else if cmd = bluetoothProvisionCmd then [.enableBroadcast]
  else if cmd = stopApCmd then [.disableBroadcast, .applyClientConfig]
  else []

/-- Result codes a bleno write callback can deliver
(`this.RESULT_SUCCESS` / `this.RESULT_UNLIKELY_ERROR`). -/
inductive BleResult where
  | success
  | unlikelyError
deriving DecidableEq

/-- One observable effect of a handler, in program order.  `writeRecord j`
is a successful `fs.writeFileSync(wifiConfigPath, JSON.stringify(j, null, 2))`;
`writeFailed` is that call throwing; `respond` carries the HTTP status and
the identifying first heading/body text of the response (full HTML elided);
`setTimeoutChain d c` registers chain `c` to start after `d` ms;
`startChain c` starts it immediately. -/
inductive Effect where
  | writeRecord (content : Json)
  | writeFailed
  | respond (status : Nat) (body : String)
  | setTimeoutChain (delayMs : Nat) (chain : GatedChain)
  | startChain (chain : GatedChain)
  | stopAdvertising
  | startAdvertising (name : String)
  | bleReply (result : BleResult)

/-- The request body seen by `app.post('/setup/wifi')` after
`const { ssid, password } = req.body` (`none` = property absent, i.e.
`undefined`). -/
structure WifiRequestBody where
  ssid : Option Json
  password : Option Json

/-- `const wifiData = { ssid, password }` — the record written by the portal
handler.  It is only built on the branch where both fields are truthy, so
the `Json.null` defaults are never reached there. -/
def portalRecord (b : WifiRequestBody) : Json :=
  Json.obj [("ssid", b.ssid.getD Json.null), ("password", b.password.getD Json.null)]

/-- `app.post('/setup/wifi')` (src/server.js:157-184), as its ordered effect
list.  `ioOk` says whether `fs.writeFileSync` succeeds; when it throws the
exception propagates out of the handler, so neither the confirmation
response nor the `setTimeout` registration happens. -/
def setupWifiEffects (ioOk : Bool) (b : WifiRequestBody) : List Effect :=
  if !(jsTruthyOpt b.ssid && jsTruthyOpt b.password) then
    [.respond 400 "Missing credentials"]
  else if ioOk then
    [.writeRecord (portalRecord b),
     .respond 200 "WiFi credentials saved.",
     .setTimeoutChain 5000 chainStopBtLaunch]
  else
    [.writeFailed]

/-- `CredentialsCharacteristic.onWriteRequest` (src/server.js:78-100), as its
ordered effect list.  `parsed` is the outcome of `JSON.parse` on the UTF-8
payload; the surrounding `try/catch` turns a parse failure or a write
failure into `RESULT_UNLIKELY_ERROR`. -/
def onWriteRequestEffects (ioOk : Bool) (parsed : Except Unit Json) : List Effect :=
  match parsed with
  | .error _ => [.bleReply .unlikelyError]
  | .ok credentials =>
    if ioOk then
      [.writeRecord credentials,
       .stopAdvertising,
       .startChain chainStopBtLaunch,
       .bleReply .success]
    else
      [.writeFailed, .bleReply .unlikelyError]

/-- Server-side mutable state touched by the handlers: the credential record
file, and the queue of script chains that have been started or scheduled
(each `setTimeout`/`runScript` registration appends one entry — nothing in
the source deduplicates them). -/
structure ServerState where
  file : FileState
  scheduled : List GatedChain

/-- How one effect updates the server state. -/
def applyEffect (st : ServerState) (e : Effect) : ServerState :=
  match e with
  | .writeRecord j => { st with file := some (.ok j) }
  | .setTimeoutChain _ c => { st with scheduled := st.scheduled ++ [c] }
  | .startChain c => { st with scheduled := st.scheduled ++ [c] }
  | _ => st

def applyEffects (st : ServerState) (es : List Effect) : ServerState :=
  es.foldl applyEffect st

/-- Process one `POST /setup/wifi` request (successful I/O). -/
def stepPortal (st : ServerState) (b : WifiRequestBody) : ServerState :=
  applyEffects st (setupWifiEffects true b)

/-- Process one BLE characteristic write (successful I/O). -/
def stepBleWrite (st : ServerState) (parsed : Except Unit Json) : ServerState :=
  applyEffects st (onWriteRequestEffects true parsed)

/-- The `bleno.on('stateChange', ...)` handler registered on an unprovisioned
boot (src/server.js:203-216): advertise on `poweredOn`, stop advertising on
any other state. -/
def stateChangeEffect (state : String) : Effect :=
  if state = "poweredOn" then .startAdvertising "Provisioner" else .stopAdvertising

/-- The `server.listen` callback (src/server.js:187-227): with valid
credentials, stop advertising and run the stop-bluetooth/launch-kiosk chain;
otherwise register the BLE handlers, whose effects are driven by the
sequence of BLE adapter state changes `bleStates`. -/
def bootEffects (file : FileState) (bleStates : List String) : List Effect :=
  if wifiCredentialsExist file then
    [.stopAdvertising, .startChain chainStopBtLaunch]
  else
    bleStates.map stateChangeEffect

/-- HTTP methods used by the route table. -/
inductive Method where
  | get
  | post
deriving DecidableEq

/-- Every route registered on the Express app in `src/server.js`
(lines 115, 132, 138, 157).  A request matching none of these falls through
to Express's default 404 handler and touches no server state. -/
def serverRoutes : List (Method × String) :=
  [(.get, "/"), (.get, "/setup"), (.get, "/setup/qrcode"), (.post, "/setup/wifi")]

/-- The acknowledgement object sent by the historical reset route. -/
structure ResetAck where
  success : Bool
  message : String
deriving DecidableEq

/-- `app.post('/reset', ...)` from the historical server revision bundled in
`src/scripts/stop_ap.sh`: `if (wifiCredentialsExist()) fs.unlinkSync(path)`
— with that revision's existence-only check — then send the ack.  Returns
the file state after the handler and the response body. -/
def resetHandlerLegacy (file : FileState) : FileState × ResetAck :=
  (if wifiCredentialsExistLegacy file then none else file,
   { success := true, message := "Device reset to setup mode" })

/-- The fixed path of the credential record, relative to the app directory
(`path.flatten(__dirname, 'config', 'wifi-config.json')`). -/
def wifiConfigPath : String := "config/wifi-config.json"

/-- File-system operations, for stating how `save` writes the record. -/
inductive FsOp where
  | writeFile (path : String) (content : Json)
  | rename (src dst : String)
  | unlink (path : String)

/-- The file-system operations both intakes perform to persist a credential
record (src/server.js:85 and :163): a single direct
`fs.writeFileSync(wifiConfigPath, ...)`. -/
def saveOps (credentials : Json) : List FsOp :=
  [.writeFile wifiConfigPath credentials]

/-- Modelled from the spec (§4.1 `save`): the scoped
write-to-temp-then-atomic-replace pattern the spec requires — write the
serialized record to some other path, then atomically rename it over the
record path. -/
def specAtomicReplaceSave (ops : List FsOp) : Prop :=
  ∃ tmp content, tmp ≠ wifiConfigPath ∧
    ops = [FsOp.writeFile tmp content, FsOp.rename tmp wifiConfigPath]

/-- Whether an effect enables a broadcast channel: starting BLE advertising,
or starting/scheduling a chain that can issue a broadcast-enabling command
(`setup_ap.sh` or `bluetooth_provision.sh`). -/
def chainCmds (c : GatedChain) : List String :=
  c.first :: c.onSuccess.toList

def effectEnablesBroadcast : Effect → Bool
  | .startAdvertising _ => true
  | .startChain c => (chainCmds c).any fun cmd => (cmdActions cmd).contains .enableBroadcast
  | .setTimeoutChain _ c => (chainCmds c).any fun cmd => (cmdActions cmd).contains .enableBroadcast
  | _ => false

/-- C1 counterexample: a portal submission whose ssid is the whitespace-only
string `" "` (empty after trimming) is NOT rejected: the record is written
and the handler responds 200, not 400.  Likewise a BLE write whose two
fields are whitespace-only returns the success result and writes the
record.  This refutes the trim-based rejection rule on both intake paths. -/
theorem c1_counterexample :
    (setupWifiEffects true ⟨some (Json.str " "), some (Json.str "x")⟩ =
      [Effect.writeRecord (Json.obj [("ssid", Json.str " "), ("password", Json.str "x")]),
       Effect.respond 200 "WiFi credentials saved.",
       Effect.setTimeoutChain 5000 chainStopBtLaunch])
    ∧ jsTrim " " = ""
    ∧ (onWriteRequestEffects true
        (Except.ok (Json.obj [("ssid", Json.str " "), ("password", Json.str " ")])) =
      [Effect.writeRecord (Json.obj [("ssid", Json.str " "), ("password", Json.str " ")]),
       Effect.stopAdvertising,
       Effect.startChain chainStopBtLaunch,
       Effect.bleReply BleResult.success]) :=
  ⟨rfl, rfl, rfl⟩

/-- C1 amended: the portal rejects with 400 `Missing credentials`, writing
nothing, exactly those submissions in which `ssid` or `password` is missing
or JavaScript-falsy (in particular the empty string); whitespace-only
strings are accepted and written.  The BLE intake applies no field
validation at all: every successfully parsed JSON payload is written and
acknowledged with the success result.  The two intake paths therefore do
not apply the same rejection rule, and no trim-based rule exists. -/
theorem c1_amended :
    (∀ b : WifiRequestBody, setupWifiEffects true b =
      if jsTruthyOpt b.ssid && jsTruthyOpt b.password then
        [Effect.writeRecord (portalRecord b),
         Effect.respond 200 "WiFi credentials saved.",
         Effect.setTimeoutChain 5000 chainStopBtLaunch]
      else
        [Effect.respond 400 "Missing credentials"])
    ∧ (∀ j : Json, onWriteRequestEffects true (Except.ok j) =
        [Effect.writeRecord j, Effect.stopAdvertising,
         Effect.startChain chainStopBtLaunch, Effect.bleReply BleResult.success]) := by
  constructor
  · intro b
    cases h : jsTruthyOpt b.ssid && jsTruthyOpt b.password <;>
      simp [setupWifiEffects, h]
  · intro j
    rfl

/-- C2 counterexample: two identical valid portal submissions in immediate
succession schedule the client-mode action chain twice (one `setTimeout`
registration per accepted request) — not once — so the second submission is
not a no-op. -/
theorem c2_counterexample :
    (stepPortal
      (stepPortal ⟨none, []⟩
        ⟨some (Json.str "HomeNet"), some (Json.str "s3cret!!")⟩)
      ⟨some (Json.str "HomeNet"), some (Json.str "s3cret!!")⟩).scheduled =
    [chainStopBtLaunch, chainStopBtLaunch] :=
  rfl

/-- C2 amended: there is no at-most-one-winner guard.  Every accepted portal
submission overwrites the single record file and appends its own invocation
of the client-mode action chain; a rejected submission changes nothing.
Consequently two valid submissions in immediate succession leave one stored
record (the second overwrites the first) but schedule the action chain
twice. -/
theorem c2_amended :
    (∀ (st : ServerState) (b : WifiRequestBody), stepPortal st b =
      if jsTruthyOpt b.ssid && jsTruthyOpt b.password then
        { file := some (Except.ok (portalRecord b)),
          scheduled := st.scheduled ++ [chainStopBtLaunch] }
      else st)
    ∧ ((stepPortal
        (stepPortal ⟨none, []⟩ ⟨some (Json.str "A"), some (Json.str "B")⟩)
        ⟨some (Json.str "A"), some (Json.str "B")⟩) =
      { file := some (Except.ok (Json.obj [("ssid", Json.str "A"), ("password", Json.str "B")])),
        scheduled := [chainStopBtLaunch, chainStopBtLaunch] }) := by
  constructor
  · intro st b
    cases h : jsTruthyOpt b.ssid && jsTruthyOpt b.password <;>
      simp [stepPortal, setupWifiEffects, h, applyEffects, applyEffect]
  · rfl

/-- C4 counterexample: the BLE payload `42` parses as JSON but is not the
expected two-field credential structure, yet the write is acknowledged with
the success result and the parsed value is written to the record file —
refuting the claim that such a payload yields an error result with no
write. -/
theorem c4_counterexample :
    onWriteRequestEffects true (Except.ok (Json.num 42)) =
      [Effect.writeRecord (Json.num 42), Effect.stopAdvertising,
       Effect.startChain chainStopBtLaunch, Effect.bleReply BleResult.success] :=
  rfl

/-- C4 amended: the BLE write returns the characteristic-level error result
exactly when `JSON.parse` throws on the payload (or when the record write
itself throws), and in those cases no record is written and no chain is
started; every payload that parses as JSON — of any shape, two-field or not
— is written and acknowledged with success, triggering the submission
handling (stop advertising + script chain) exactly once per write. -/
theorem c4_amended :
    (∀ ioOk : Bool, onWriteRequestEffects ioOk (Except.error ()) =
      [Effect.bleReply BleResult.unlikelyError])
    ∧ (∀ j : Json, onWriteRequestEffects true (Except.ok j) =
        [Effect.writeRecord j, Effect.stopAdvertising,
         Effect.startChain chainStopBtLaunch, Effect.bleReply BleResult.success])
    ∧ (∀ j : Json, onWriteRequestEffects false (Except.ok j) =
        [Effect.writeFailed, Effect.bleReply BleResult.unlikelyError]) :=
  ⟨fun _ => rfl, fun _ => rfl, fun _ => rfl⟩

/-- C5 counterexample: persisting a record is a single direct
`fs.writeFileSync` to the record path — it does not follow the
write-to-temp-then-atomic-rename pattern the claim describes. -/
theorem c5_counterexample :
    (saveOps (Json.obj [("ssid", Json.str "HomeNet"), ("password", Json.str "s3cret!!")]) =
      [FsOp.writeFile wifiConfigPath
        (Json.obj [("ssid", Json.str "HomeNet"), ("password", Json.str "s3cret!!")])])
    ∧ ¬ specAtomicReplaceSave
        (saveOps (Json.obj [("ssid", Json.str "HomeNet"), ("password", Json.str "s3cret!!")])) := by
  refine ⟨rfl, ?_⟩
  rintro ⟨tmp, content, _, heq⟩
  simp [saveOps] at heq

/-- C5 amended: both intakes persist the record with one in-place
`fs.writeFileSync` on the record path (no temp file, no atomic rename), so
a concurrent reader may observe a partially-written record.  On I/O failure
the state machine still does not advance: the BLE intake catches the
exception and replies with the error result without starting any script
chain, and the portal handler lets the exception propagate, sending no
confirmation and scheduling nothing. -/
theorem c5_amended :
    (∀ c : Json, saveOps c = [FsOp.writeFile wifiConfigPath c])
    ∧ (∀ j : Json, onWriteRequestEffects false (Except.ok j) =
        [Effect.writeFailed, Effect.bleReply BleResult.unlikelyError])
    ∧ (∀ b : WifiRequestBody, setupWifiEffects false b =
        if jsTruthyOpt b.ssid && jsTruthyOpt b.password then [Effect.writeFailed]
        else [Effect.respond 400 "Missing credentials"]) := by
  refine ⟨fun _ => rfl, fun _ => rfl, fun b => ?_⟩
  cases h : jsTruthyOpt b.ssid && jsTruthyOpt b.password <;>
    simp [setupWifiEffects, h]

/-- C9 confirmed: every BLE payload that parses as JSON — whatever its shape
— is written verbatim to the record file and the write succeeds; in
particular the non-object payload `42` is stored with a success result while
the validity check on the resulting record returns false. -/
theorem c9_ble_any_json :
    (∀ (st : ServerState) (j : Json), stepBleWrite st (Except.ok j) =
      { file := some (Except.ok j), scheduled := st.scheduled ++ [chainStopBtLaunch] })
    ∧ (∀ j : Json, (onWriteRequestEffects true (Except.ok j)).getLast? =
        some (Effect.bleReply BleResult.success))
    ∧ ((stepBleWrite ⟨none, []⟩ (Except.ok (Json.num 42))).file =
        some (Except.ok (Json.num 42)))
    ∧ wifiCredentialsExist (stepBleWrite ⟨none, []⟩ (Except.ok (Json.num 42))).file = false :=
  ⟨fun _ _ => rfl, fun _ => rfl, rfl, rfl⟩

/-- C10 confirmed: for every portal submission passing the field guard, the
handler's effects are, in program order: write the record file, send the 200
confirmation page, and only then register the script chain to start after a
5000 ms delay — so the persisted record precedes the first side-effecting
script, and no script is started synchronously. -/
theorem c10_portal_order (b : WifiRequestBody)
    (hs : jsTruthyOpt b.ssid = true) (hp : jsTruthyOpt b.password = true) :
    setupWifiEffects true b =
      [Effect.writeRecord (portalRecord b),
       Effect.respond 200 "WiFi credentials saved.",
       Effect.setTimeoutChain 5000 chainStopBtLaunch] := by
  simp [setupWifiEffects, hs, hp]

/-- Witness for C10 at the concrete submission `{ssid:"HomeNet",
password:"s3cret!!"}`. -/
theorem c10_portal_order_witness :
    jsTruthyOpt (some (Json.str "HomeNet")) = true ∧
    jsTruthyOpt (some (Json.str "s3cret!!")) = true ∧
    setupWifiEffects true ⟨some (Json.str "HomeNet"), some (Json.str "s3cret!!")⟩ =
      [Effect.writeRecord (portalRecord ⟨some (Json.str "HomeNet"), some (Json.str "s3cret!!")⟩),
       Effect.respond 200 "WiFi credentials saved.",
       Effect.setTimeoutChain 5000 chainStopBtLaunch] :=
  ⟨rfl, rfl, c10_portal_order ⟨some (Json.str "HomeNet"), some (Json.str "s3cret!!")⟩ rfl rfl⟩

/-- C6 counterexample: in a fully successful accepted-submission run, the
commands issued are exactly `stop_bluetooth.sh` then `launch_kiosk.sh` —
DisableBroadcast then LaunchDisplay.  No issued command performs
ApplyClientConfig, refuting the claim that ApplyClientConfig is issued and
completed between them in every accepted sequence. -/
theorem c6_counterexample :
    (runChain chainStopBtLaunch (fun _ => true) = [stopBluetoothCmd, launchKioskCmd])
    ∧ (((runChain chainStopBtLaunch (fun _ => true)).map cmdActions).flatten =
        [SpecAction.disableBroadcast, SpecAction.launchDisplay])
    ∧ SpecAction.applyClientConfig ∉
        ((runChain chainStopBtLaunch (fun _ => true)).map cmdActions).flatten := by
  refine ⟨rfl, rfl, ?_⟩
  decide

/-- C6 amended: the accepted-submission action sequence of both intakes is
the two-command chain `stop_bluetooth.sh` (DisableBroadcast) then
`launch_kiosk.sh` (LaunchDisplay): the launch command is issued only after
the teardown command signals completion without error, and is not issued at
all when the teardown fails.  No separate ApplyClientConfig action is ever
issued in this sequence. -/
theorem c6_amended :
    (∀ ok : String → Bool, runChain chainStopBtLaunch ok =
      if ok stopBluetoothCmd then [stopBluetoothCmd, launchKioskCmd]
      else [stopBluetoothCmd])
    ∧ (∀ ok : String → Bool, SpecAction.applyClientConfig ∉
        ((runChain chainStopBtLaunch ok).map cmdActions).flatten)
    ∧ (∀ ok : String → Bool,
        launchKioskCmd ∈ runChain chainStopBtLaunch ok → ok stopBluetoothCmd = true)
    ∧ (∀ j : Json, onWriteRequestEffects true (Except.ok j) =
        [Effect.writeRecord j, Effect.stopAdvertising,
         Effect.startChain chainStopBtLaunch, Effect.bleReply BleResult.success]) := by
  refine ⟨fun ok => ?_, fun ok => ?_, fun ok h => ?_, fun _ => rfl⟩
  · cases h : ok stopBluetoothCmd <;> simp [runChain, chainStopBtLaunch, h]
  · cases h : ok stopBluetoothCmd <;>
      simp [runChain, chainStopBtLaunch, h, cmdActions,
        stopBluetoothCmd, launchKioskCmd, setupApCmd, bluetoothProvisionCmd, stopApCmd]
  · cases hq : ok stopBluetoothCmd with
    | true => rfl
    | false =>
      exfalso
      simp [runChain, chainStopBtLaunch, hq] at h
      simp [stopBluetoothCmd, launchKioskCmd] at h

/-- C7 confirmed: when the boot-time check finds a valid credential record,
the `server.listen` callback stops BLE advertising and runs the
stop-bluetooth/launch-kiosk chain — the provisioned path — and, whatever the
BLE adapter does afterwards, no effect of that run enables a broadcast
channel (no `startAdvertising`, no `setup_ap.sh`, no
`bluetooth_provision.sh`). -/
theorem c7_boot_provisioned (file : FileState) (bleStates : List String)
    (h : wifiCredentialsExist file = true) :
    bootEffects file bleStates = [Effect.stopAdvertising, Effect.startChain chainStopBtLaunch]
    ∧ (bootEffects file bleStates).all (fun e => !effectEnablesBroadcast e) = true := by
  constructor
  · simp [bootEffects, h]
  · simp only [bootEffects, h, if_pos]
    decide

/-- Witness for C7: a boot with the valid record `{ssid:"HomeNet",
password:"s3cret!!"}` on disk, while the BLE adapter powers on. -/
theorem c7_boot_provisioned_witness :
    wifiCredentialsExist (some (Except.ok (Json.obj
      [("ssid", Json.str "HomeNet"), ("password", Json.str "s3cret!!")]))) = true
    ∧ (bootEffects (some (Except.ok (Json.obj
        [("ssid", Json.str "HomeNet"), ("password", Json.str "s3cret!!")]))) ["poweredOn"] =
        [Effect.stopAdvertising, Effect.startChain chainStopBtLaunch]
      ∧ (bootEffects (some (Except.ok (Json.obj
          [("ssid", Json.str "HomeNet"), ("password", Json.str "s3cret!!")]))) ["poweredOn"]).all
          (fun e => !effectEnablesBroadcast e) = true) :=
  ⟨rfl, c7_boot_provisioned
    (some (Except.ok (Json.obj [("ssid", Json.str "HomeNet"), ("password", Json.str "s3cret!!")])))
    ["poweredOn"] rfl⟩

/-- C8 counterexample: `src/server.js` registers no `POST /reset` route at
all — the request is not handled by the program, so no reset path runs and
no acknowledgement body is produced. -/
theorem c8_counterexample : (Method.post, "/reset") ∉ serverRoutes := by
  decide

/-- C8 amended: the current server registers no `POST /reset` route (the
request falls through to the framework's default 404 and no server state is
touched).  The described handler exists only in a historical server revision
bundled in `src/scripts/stop_ap.sh`: there it deletes the record whenever
that revision's existence check sees one, responds
`{success: true, message: "Device reset to setup mode"}`, and afterwards
both the legacy and the strict validity checks return false; nothing is
re-armed because that revision's HTTP intake is never disarmed. -/
theorem c8_amended :
    ((Method.post, "/reset") ∉ serverRoutes)
    ∧ (∀ file : FileState, (resetHandlerLegacy file).1 = none)
    ∧ (∀ file : FileState, (resetHandlerLegacy file).2 =
        { success := true, message := "Device reset to setup mode" })
    ∧ (∀ file : FileState,
        wifiCredentialsExist (resetHandlerLegacy file).1 = false
        ∧ wifiCredentialsExistLegacy (resetHandlerLegacy file).1 = false) := by
  refine ⟨by decide, fun file => ?_, fun file => rfl, fun file => ?_⟩
  · cases file <;> rfl
  · cases file <;> exact ⟨rfl, rfl⟩
theorem jsTrim_empty : jsTrim "" = "" := rfl

/-- The validity expression evaluates (without throwing) to `true` exactly
when both `ssid` and `password` are string fields that remain non-empty
after JavaScript trimming. -/
theorem credCheck_iff (data : Json) :
    jsBoolCaught (credFieldExpr data) = true ↔
      ∃ s p, jsProp data "ssid" = Except.ok (some (Json.str s)) ∧
        jsProp data "password" = Except.ok (some (Json.str p)) ∧
        jsTrim s ≠ "" ∧ jsTrim p ≠ "" := by
  cases data with
  | null => simp [credFieldExpr, jsProp, jsBoolCaught]
  | bool b => simp [credFieldExpr, jsProp, jsTruthyOpt, jsBoolCaught]
  | num n => simp [credFieldExpr, jsProp, jsTruthyOpt, jsBoolCaught]
  | str s => simp [credFieldExpr, jsProp, jsTruthyOpt, jsBoolCaught]
  | arr elems => simp [credFieldExpr, jsProp, jsTruthyOpt, jsBoolCaught]
  | obj fields =>
    cases hls : fields.lookup "ssid" with
    | none => simp [credFieldExpr, jsProp, hls, jsTruthyOpt, jsBoolCaught]
    | some vs =>
      cases hlp : fields.lookup "password" with
      | none =>
        cases vs <;>
          simp [credFieldExpr, jsProp, hls, hlp, jsTruthyOpt, jsTruthy,
            jsTrimCall, jsBoolCaught, apply_ite jsBoolCaught]
      | some vp =>
        cases vs <;> cases vp <;>
          first
          | (simp [credFieldExpr, jsProp, hls, hlp, jsTruthyOpt, jsTruthy,
               jsTrimCall, jsBoolCaught]
             first
             | done
             | (split
                all_goals
                  (first
                  | rfl
                  | (rename_i b heq
                     repeat' split at heq
                     all_goals
                       (first
                       | rfl
                       | (injection heq with hb ; subst hb ; rfl)
                       | injection heq)))
                done))
          | (rename_i s p
             simp only [credFieldExpr, jsProp, hls, hlp, jsTruthyOpt, jsTruthy,
               jsTrimCall, jsBoolCaught]
             by_cases hs0 : s = ""
             · simp [hs0, jsTrim_empty]
             · by_cases hp0 : p = ""
               · simp [hs0, hp0, jsTrim_empty]
               · by_cases hst : jsTrim s = ""
                 · simp [hs0, hp0, hst]
                 · simp [hs0, hp0, hst])

/-- C3 confirmed: the credential validity check returns true exactly when
the record file is present, parses, and both `ssid` and `password` are
string fields that are non-empty after trimming whitespace; a missing file
yields false (not an error), and an unparseable record yields false with
the parse failure swallowed by the catch. -/
theorem c3_exists_valid :
    (∀ file : FileState, wifiCredentialsExist file = true ↔
      ∃ data s p, file = some (Except.ok data) ∧
        jsProp data "ssid" = Except.ok (some (Json.str s)) ∧
        jsProp data "password" = Except.ok (some (Json.str p)) ∧
        jsTrim s ≠ "" ∧ jsTrim p ≠ "")
    ∧ wifiCredentialsExist none = false
    ∧ wifiCredentialsExist (some (Except.error ())) = false := by
  refine ⟨fun file => ?_, rfl, rfl⟩
  cases file with
  | none => simp [wifiCredentialsExist]
  | some r =>
    cases r with
    | error e => simp [wifiCredentialsExist]
    | ok data =>
      simp only [wifiCredentialsExist]
      rw [credCheck_iff data]
      constructor
      · rintro ⟨s, p, h1, h2, h3, h4⟩
        exact ⟨data, s, p, rfl, h1, h2, h3, h4⟩
      · rintro ⟨d, s, p, hfile, h1, h2, h3, h4⟩
        simp only [Option.some.injEq, Except.ok.injEq] at hfile
        subst hfile
        exact ⟨s, p, h1, h2, h3, h4⟩

/-- Witness for C6 amended, at the oracle under which every command
succeeds: the launch command is then in the issued list, so the gating
hypothesis is discharged concretely. -/
theorem c6_amended_witness :
    (fun _ => true : String → Bool) stopBluetoothCmd = true :=
  c6_amended.2.2.1 (fun _ => true) (by decide)
